import Mathlib

/-!
Mobile navigation toggle (navigation.js)

A shallow embedding of the script

    const nav = document.querySelector(".primary-navigation");
    const navToggle = document.querySelector(".mobile-nav-toggle");

    navToggle.addEventListener("click", () => {
      const visibility = nav.getAttribute("data-visible");
      if (visibility === "false") {
        nav.setAttribute("data-visible", true);
        navToggle.setAttribute("aria-expanded", true);
      } else {
        nav.setAttribute("data-visible", false);
        navToggle.setAttribute("aria-expanded", false);
      }
    });

The document is a list of elements in document order. An element reference is
the position of the element in that list; the script never adds or removes an
element, so positions are stable. A JavaScript binding that may hold null is an
Option of a position.
-/

namespace Navigation

/-! ## JavaScript values -/

/-- The JavaScript values the script handles: undefined, null, booleans and strings. -/
inductive JSVal where
  | undefined : JSVal
  | null : JSVal
  | bool (b : Bool) : JSVal
  | str (s : String) : JSVal
  deriving DecidableEq, Repr

/-- The errors the script can raise: a TypeError, from reading a property of null. -/
inductive JSError where
  | typeError (msg : String) : JSError
  deriving DecidableEq, Repr

/-- How a piece of code ends: normally with a value, or by throwing. -/
inductive Completion where
  | normal (v : JSVal) : Completion
  | throw (e : JSError) : Completion
  deriving DecidableEq, Repr

/-- The operator ===, on the values of JSVal: same type and same value. -/
def strictEq : JSVal → JSVal → Bool
  | JSVal.undefined, JSVal.undefined => true
  | JSVal.null, JSVal.null => true
  | JSVal.bool a, JSVal.bool b => a == b
  | JSVal.str a, JSVal.str b => a == b
  | _, _ => false

/-- The conversion of a value to a DOMString, applied by setAttribute to its value argument. -/
def toDOMString : JSVal → String
  | JSVal.undefined => "undefined"
  | JSVal.null => "null"
  | JSVal.bool true => "true"
  | JSVal.bool false => "false"
  | JSVal.str s => s

/-! ## The DOM -/

/-- An element: its class list and its attribute list (name, value), in order. -/
structure Element where
  classes : List String
  attrs : List (String × String)
  deriving DecidableEq, Repr

/-- The document: its elements in document order. -/
abbrev Document := List Element

/-- The value of the first attribute named name, if there is one. -/
def getAttr : List (String × String) → String → Option String
  | [], _ => none
  | (k, v) :: rest, name => if k = name then some v else getAttr rest name

/-- Change the value of the first attribute named name, or append a new
attribute when there is none. -/
def setAttr : List (String × String) → String → String → List (String × String)
  | [], name, value => [(name, value)]
  | (k, v) :: rest, name, value =>
      if k = name then (k, value) :: rest else (k, v) :: setAttr rest name value

/-- Element.getAttribute: the attribute value as a string, or null when absent. -/
def Element.getAttribute (e : Element) (name : String) : JSVal :=
  match getAttr e.attrs name with
  | some v => JSVal.str v
  | none => JSVal.null

/-- Element.setAttribute: the value is converted to a string and stored. -/
def Element.setAttribute (e : Element) (name : String) (value : JSVal) : Element :=
  { e with attrs := setAttr e.attrs name (toDOMString value) }

/-- Apply f to the element at position i (nothing changes when i is out of range). -/
def updateAt (f : Element → Element) : Document → Nat → Document
  | [], _ => []
  | e :: rest, 0 => f e :: rest
  | e :: rest, i + 1 => e :: updateAt f rest i

/-- Read an attribute of the element referenced by i (null for a dangling reference,
which the script never produces). -/
def getAttribute (doc : Document) (i : Nat) (name : String) : JSVal :=
  match doc[i]? with
  | some e => e.getAttribute name
  | none => JSVal.null

/-- Write an attribute of the element referenced by i. -/
def setAttribute (doc : Document) (i : Nat) (name : String) (value : JSVal) : Document :=
  updateAt (fun e => e.setAttribute name value) doc i

/-- The call document.querySelector("." ++ cls): the first element in document order
whose class list contains cls, or null. -/
def querySelector : Document → String → Option Nat
  | [], _ => none
  | e :: rest, cls =>
      if cls ∈ e.classes then some 0 else (querySelector rest cls).map (· + 1)

/-! ## The script -/

/-- The module-level bindings nav and navToggle (lines 1-2); none is null. -/
structure Env where
  nav : Option Nat
  navToggle : Option Nat
  deriving DecidableEq, Repr

/-- The TypeError raised by a property access on null. -/
def nullDeref (binding property : String) : JSError :=
  JSError.typeError ("Cannot read properties of null (reading " ++ property ++ "): " ++ binding)

/-- The second statement of either branch (lines 9 and 12):
navToggle.setAttribute("aria-expanded", b). -/
def setExpanded (env : Env) (doc : Document) (b : Bool) : Completion × Document :=
  match env.navToggle with
  | none => (Completion.throw (nullDeref "navToggle" "setAttribute"), doc)
  | some t => (Completion.normal JSVal.undefined, setAttribute doc t "aria-expanded" (JSVal.bool b))

/-- The click handler (lines 4-14), run once on a document: the completion
(the arrow function has no return statement, so a normal completion yields
undefined) and the document it leaves. -/
def handler (env : Env) (doc : Document) : Completion × Document :=
  match env.nav with
  | none => (Completion.throw (nullDeref "nav" "getAttribute"), doc)
  | some n =>
      let visibility := getAttribute doc n "data-visible"
      if strictEq visibility (JSVal.str "false") then
        setExpanded env (setAttribute doc n "data-visible" (JSVal.bool true)) true
      else
        setExpanded env (setAttribute doc n "data-visible" (JSVal.bool false)) false

/-- The document after k consecutive runs of the click handler. -/
def clicks (env : Env) : Nat → Document → Document
  | 0, doc => doc
  | k + 1, doc => clicks env k (handler env doc).2

/-- The completions of k consecutive runs of the click handler, in order. -/
def completions (env : Env) : Nat → Document → List Completion
  | 0, _ => []
  | k + 1, doc => (handler env doc).1 :: completions env k (handler env doc).2

/-- A page whose script has run: the document, the script bindings, and the
elements on which the click handler is registered. -/
structure Page where
  doc : Document
  env : Env
  listeners : List Nat
  deriving DecidableEq, Repr

/-- The top-level script (lines 1-14), no click dispatched: both lookups, then
navToggle.addEventListener, which throws when navToggle is null. -/
def script (doc : Document) : Except JSError Page :=
  let nav := querySelector doc "primary-navigation"
  let navToggle := querySelector doc "mobile-nav-toggle"
  match navToggle with
  | none => Except.error (nullDeref "navToggle" "addEventListener")
  | some t => Except.ok { doc := doc, env := { nav := nav, navToggle := navToggle }, listeners := [t] }

/-- One click on the trigger: the registered handler runs once. -/
def Page.click (p : Page) : Page :=
  { p with doc := (handler p.env p.doc).2 }

/-- The page after k clicks on the trigger. -/
def Page.clickN : Nat → Page → Page
  | 0, p => p
  | k + 1, p => Page.clickN k p.click

/-- The panel attribute data-visible, as getAttribute reads it. -/
def dataVisible (doc : Document) (n : Nat) : JSVal := getAttribute doc n "data-visible"

/-- The trigger attribute aria-expanded, as getAttribute reads it. -/
def ariaExpanded (doc : Document) (t : Nat) : JSVal := getAttribute doc t "aria-expanded"

/-! ## Sample documents -/

/-- A panel element with the given attributes. -/
def panelEl (attrs : List (String × String)) : Element :=
  { classes := ["primary-navigation", "flex"], attrs := attrs }

/-- A trigger element with the given attributes. -/
def toggleEl (attrs : List (String × String)) : Element :=
  { classes := ["mobile-nav-toggle"], attrs := attrs }

/-- Markup with the trigger first and the panel second, both attributes "false". -/
def sampleDoc : Document :=
  [toggleEl [("aria-controls", "primary-navigation"), ("aria-expanded", "false")],
   panelEl [("id", "primary-navigation"), ("data-visible", "false")]]

/-- Markup in which the panel has no data-visible attribute and the trigger says "true". -/
def absentDoc : Document :=
  [toggleEl [("aria-expanded", "true")], panelEl [("id", "primary-navigation")]]

/-- Markup whose two attributes disagree. -/
def mismatchDoc : Document :=
  [toggleEl [("aria-expanded", "false")], panelEl [("data-visible", "true")]]

/-- Markup that agrees with sampleDoc on data-visible and differs on aria-expanded. -/
def staleDoc : Document :=
  [toggleEl [("aria-expanded", "true")], panelEl [("data-visible", "false")]]

/-- Markup with a trigger and no panel. -/
def triggerOnlyDoc : Document :=
  [toggleEl [("aria-expanded", "false")]]

/-- Markup with a panel and no trigger. -/
def panelOnlyDoc : Document :=
  [panelEl [("data-visible", "false")]]

/-- The bindings of the sample documents: panel at position 1, trigger at position 0. -/
def sampleEnv : Env := { nav := some 1, navToggle := some 0 }

/-- The page the script builds from mismatchDoc. -/
def mismatchPage : Page := { doc := mismatchDoc, env := sampleEnv, listeners := [0] }

/-- The page the script builds from triggerOnlyDoc: nav is null. -/
def triggerOnlyPage : Page :=
  { doc := triggerOnlyDoc, env := { nav := none, navToggle := some 0 }, listeners := [0] }

/-! ## Attribute lists -/

theorem getAttr_setAttr_same (a : List (String × String)) (name value : String) :
    getAttr (setAttr a name value) name = some value := by
  induction a with
  | nil => simp [setAttr, getAttr]
  | cons p rest ih =>
    obtain ⟨k, v⟩ := p
    by_cases hk : k = name
    · simp [setAttr, getAttr, hk]
    · simp [setAttr, getAttr, hk, ih]

theorem getAttr_setAttr_other (a : List (String × String)) (name other value : String)
    (h : other ≠ name) : getAttr (setAttr a name value) other = getAttr a other := by
  induction a with
  | nil => simp [setAttr, getAttr, h.symm]
  | cons p rest ih =>
    obtain ⟨k, v⟩ := p
    by_cases hk : k = name
    · have ho : ¬ k = other := fun hko => h (hko.symm.trans hk)
      simp [setAttr, getAttr, hk, ho, h.symm]
    · by_cases ho : k = other
      · subst ho
        simp [setAttr, getAttr, hk]
      · simp [setAttr, getAttr, hk, ho, ih]

theorem setAttr_of_getAttr (a : List (String × String)) (name value : String)
    (h : getAttr a name = some value) : setAttr a name value = a := by
  induction a with
  | nil => simp [getAttr] at h
  | cons p rest ih =>
    obtain ⟨k, v⟩ := p
    by_cases hk : k = name
    · simp [getAttr, hk] at h
      simp [setAttr, hk, h]
    · simp [getAttr, hk] at h
      simp [setAttr, hk, ih h]

theorem setAttr_setAttr_same (a : List (String × String)) (name v w : String) :
    setAttr (setAttr a name v) name w = setAttr a name w := by
  induction a with
  | nil => simp [setAttr]
  | cons p rest ih =>
    obtain ⟨k, u⟩ := p
    by_cases hk : k = name
    · simp [setAttr, hk]
    · simp [setAttr, hk, ih]

theorem setAttr_comm (a : List (String × String)) (n m v w x : String)
    (hne : n ≠ m) (h : getAttr a n = some x) :
    setAttr (setAttr a n v) m w = setAttr (setAttr a m w) n v := by
  induction a with
  | nil => simp [getAttr] at h
  | cons p rest ih =>
    obtain ⟨k, u⟩ := p
    by_cases hn : k = n
    · subst hn
      simp [setAttr, hne]
    · by_cases hm : k = m
      · subst hm
        simp [setAttr, hn]
      · simp [getAttr, hn] at h
        simp [setAttr, hn, hm, ih h]

/-! ## Elements -/

theorem Element.get_set_same (e : Element) (name : String) (value : JSVal) :
    (e.setAttribute name value).getAttribute name = JSVal.str (toDOMString value) := by
  simp [Element.getAttribute, Element.setAttribute, getAttr_setAttr_same]

theorem Element.get_set_other (e : Element) (name other : String)
    (value : JSVal) (h : other ≠ name) :
    (e.setAttribute name value).getAttribute other = e.getAttribute other := by
  simp [Element.getAttribute, Element.setAttribute, getAttr_setAttr_other _ _ _ _ h]

theorem Element.getAttribute_eq_str (e : Element) (name s : String) :
    e.getAttribute name = JSVal.str s ↔ getAttr e.attrs name = some s := by
  unfold Element.getAttribute
  cases getAttr e.attrs name <;> simp

/-! ## Documents -/

theorem length_updateAt (f : Element → Element) (doc : Document) (i : Nat) :
    (updateAt f doc i).length = doc.length := by
  induction doc generalizing i with
  | nil => simp [updateAt]
  | cons e rest ih =>
    cases i with
    | zero => simp [updateAt]
    | succ i => simp [updateAt, ih]

theorem getElem?_updateAt (f : Element → Element) (doc : Document) (i j : Nat) :
    (updateAt f doc i)[j]? = if j = i then (doc[j]?).map f else doc[j]? := by
  induction doc generalizing i j with
  | nil => simp [updateAt]
  | cons e rest ih =>
    cases i with
    | zero =>
      cases j with
      | zero => simp [updateAt]
      | succ j => simp [updateAt]
    | succ i =>
      cases j with
      | zero => simp [updateAt]
      | succ j => simp [updateAt, ih]

theorem length_setAttribute (doc : Document) (i : Nat) (name : String) (value : JSVal) :
    (setAttribute doc i name value).length = doc.length :=
  length_updateAt _ doc i

theorem getElem?_setAttribute (doc : Document) (i j : Nat) (name : String) (value : JSVal) :
    (setAttribute doc i name value)[j]? =
      if j = i then (doc[j]?).map (fun e => e.setAttribute name value) else doc[j]? :=
  getElem?_updateAt _ doc i j

theorem getAttribute_setAttribute_same (doc : Document) (i : Nat) (name : String)
    (value : JSVal) (hi : i < doc.length) :
    getAttribute (setAttribute doc i name value) i name = JSVal.str (toDOMString value) := by
  unfold getAttribute
  rw [getElem?_setAttribute]
  simp [List.getElem?_eq_getElem hi, Element.get_set_same]

theorem getAttribute_setAttribute_other (doc : Document) (i j : Nat) (name other : String)
    (value : JSVal) (h : other ≠ name) :
    getAttribute (setAttribute doc i name value) j other = getAttribute doc j other := by
  unfold getAttribute
  rw [getElem?_setAttribute]
  by_cases hji : j = i
  · subst hji
    cases hd : doc[j]? with
    | none => simp
    | some e => simp [Element.get_set_other _ _ _ _ h]
  · simp [hji]

theorem lt_length_of_getAttribute (doc : Document) (i : Nat) (name s : String)
    (h : getAttribute doc i name = JSVal.str s) : i < doc.length := by
  unfold getAttribute at h
  cases hd : doc[i]? with
  | none => simp [hd] at h
  | some e => exact (List.getElem?_eq_some_iff.mp hd).1

theorem strictEq_str (v : JSVal) (s : String) : strictEq v (JSVal.str s) = true ↔ v = JSVal.str s := by
  cases v <;> simp [strictEq]

theorem querySelector_lt (doc : Document) (cls : String) (i : Nat)
    (h : querySelector doc cls = some i) : i < doc.length := by
  induction doc generalizing i with
  | nil => simp [querySelector] at h
  | cons e rest ih =>
    by_cases hc : cls ∈ e.classes
    · simp [querySelector, hc] at h
      subst h
      simp
    · simp [querySelector, hc] at h
      obtain ⟨j, hj, rfl⟩ := h
      simpa using ih j hj

theorem querySelector_eq_none (doc : Document) (cls : String) :
    querySelector doc cls = none ↔ ∀ e ∈ doc, cls ∉ e.classes := by
  induction doc with
  | nil => simp [querySelector]
  | cons e rest ih =>
    by_cases hc : cls ∈ e.classes
    · simp [querySelector, hc]
    · simp [querySelector, hc, ih]

/-! ## The handler -/

/-- The bindings after an initialization that located the panel at n and the trigger at t. -/
theorem handler_located (doc : Document) (n t : Nat) :
    handler { nav := some n, navToggle := some t } doc =
      (Completion.normal JSVal.undefined,
        setAttribute
          (setAttribute doc n "data-visible"
            (JSVal.bool (strictEq (dataVisible doc n) (JSVal.str "false"))))
          t "aria-expanded" (JSVal.bool (strictEq (dataVisible doc n) (JSVal.str "false")))) := by
  unfold handler setExpanded dataVisible
  by_cases h : strictEq (getAttribute doc n "data-visible") (JSVal.str "false") = true
  · simp [h]
  · simp [h]

theorem length_handler (env : Env) (doc : Document) :
    (handler env doc).2.length = doc.length := by
  unfold handler setExpanded
  cases env.nav <;> cases env.navToggle <;> simp <;> split <;> simp [length_setAttribute]

theorem length_clicks (env : Env) (k : Nat) (doc : Document) :
    (clicks env k doc).length = doc.length := by
  induction k generalizing doc with
  | zero => rfl
  | succ k ih => simp [clicks, ih, length_handler]

theorem clicks_succ_last (env : Env) (k : Nat) (doc : Document) :
    clicks env (k + 1) doc = (handler env (clicks env k doc)).2 := by
  induction k generalizing doc with
  | zero => rfl
  | succ k ih =>
    show clicks env (k + 1) (handler env doc).2 = _
    rw [ih]
    rfl

theorem dataVisible_handler (doc : Document) (n t : Nat) (hn : n < doc.length) :
    dataVisible (handler { nav := some n, navToggle := some t } doc).2 n =
      JSVal.str (toDOMString (JSVal.bool (strictEq (dataVisible doc n) (JSVal.str "false")))) := by
  rw [handler_located]
  show getAttribute _ n "data-visible" = _
  rw [getAttribute_setAttribute_other _ _ _ _ _ _ (by decide)]
  exact getAttribute_setAttribute_same _ _ _ _ hn

theorem ariaExpanded_handler (doc : Document) (n t : Nat) (ht : t < doc.length) :
    ariaExpanded (handler { nav := some n, navToggle := some t } doc).2 t =
      JSVal.str (toDOMString (JSVal.bool (strictEq (dataVisible doc n) (JSVal.str "false")))) := by
  rw [handler_located]
  exact getAttribute_setAttribute_same _ _ _ _ (by rw [length_setAttribute]; exact ht)

theorem strictEq_toDOMString_bool (c : Bool) :
    strictEq (JSVal.str (toDOMString (JSVal.bool c))) (JSVal.str "false") = !c := by
  cases c <;> decide

theorem dataVisible_clicks (n t : Nat) (k : Nat) (doc : Document) (c : Bool)
    (hv : dataVisible doc n = JSVal.str (toDOMString (JSVal.bool c))) :
    dataVisible (clicks { nav := some n, navToggle := some t } k doc) n =
      JSVal.str (toDOMString (JSVal.bool (if k % 2 = 0 then c else !c))) := by
  induction k generalizing doc c with
  | zero => simpa [clicks] using hv
  | succ k ih =>
    have hn : n < doc.length := lt_length_of_getAttribute _ _ _ _ hv
    have h1 := dataVisible_handler doc n t hn
    rw [hv, strictEq_toDOMString_bool] at h1
    have h2 := ih _ (!c) h1
    show dataVisible (clicks _ k (handler _ doc).2) n = _
    rw [h2]
    rcases Nat.mod_two_eq_zero_or_one k with hk | hk
    · have hk1 : (k + 1) % 2 = 1 := by omega
      simp [hk, hk1]
    · have hk1 : (k + 1) % 2 = 0 := by omega
      simp [hk, hk1]

/-! ## Undoing a toggle -/

theorem Element.setAttribute_setAttribute_same (e : Element) (name : String) (v w : JSVal) :
    (e.setAttribute name v).setAttribute name w = e.setAttribute name w := by
  simp [Element.setAttribute, setAttr_setAttr_same]

theorem Element.setAttribute_of_getAttribute (e : Element) (name : String) (w : JSVal)
    (h : e.getAttribute name = JSVal.str (toDOMString w)) : e.setAttribute name w = e := by
  have h1 := (Element.getAttribute_eq_str e name _).mp h
  simp [Element.setAttribute, setAttr_of_getAttr _ _ _ h1]

theorem Element.setAttribute_comm (e : Element) (n m x : String) (v w : JSVal) (hne : n ≠ m)
    (h : e.getAttribute n = JSVal.str x) :
    (e.setAttribute n v).setAttribute m w = (e.setAttribute m w).setAttribute n v := by
  have h1 := (Element.getAttribute_eq_str e n x).mp h
  simp [Element.setAttribute, setAttr_comm _ _ _ _ _ x hne h1]

theorem Element.toggle_back_same (e : Element) (b c : Bool)
    (hv : e.getAttribute "data-visible" = JSVal.str (toDOMString (JSVal.bool c))) :
    (e.setAttribute "data-visible" (JSVal.bool b)).setAttribute "data-visible" (JSVal.bool c)
      = e := by
  rw [Element.setAttribute_setAttribute_same, Element.setAttribute_of_getAttribute _ _ _ hv]

theorem Element.toggle_back_expanded (e : Element) (b c : Bool)
    (he : e.getAttribute "aria-expanded" = JSVal.str (toDOMString (JSVal.bool c))) :
    (e.setAttribute "aria-expanded" (JSVal.bool b)).setAttribute "aria-expanded" (JSVal.bool c)
      = e := by
  rw [Element.setAttribute_setAttribute_same, Element.setAttribute_of_getAttribute _ _ _ he]

theorem Element.toggle_back_both (e : Element) (b c : Bool)
    (hv : e.getAttribute "data-visible" = JSVal.str (toDOMString (JSVal.bool c)))
    (he : e.getAttribute "aria-expanded" = JSVal.str (toDOMString (JSVal.bool c))) :
    (((e.setAttribute "data-visible" (JSVal.bool b)).setAttribute "aria-expanded"
        (JSVal.bool b)).setAttribute "data-visible" (JSVal.bool c)).setAttribute
        "aria-expanded" (JSVal.bool c) = e := by
  have h1 : (e.setAttribute "data-visible" (JSVal.bool b)).getAttribute "aria-expanded" =
      JSVal.str (toDOMString (JSVal.bool c)) := by
    rw [Element.get_set_other _ _ _ _ (by decide)]
    exact he
  rw [Element.setAttribute_comm (e.setAttribute "data-visible" (JSVal.bool b)) "aria-expanded"
    "data-visible" _ (JSVal.bool b) (JSVal.bool c) (by decide) h1]
  rw [Element.toggle_back_same e b c hv, Element.toggle_back_expanded e b c he]

/-- Writing back the value c that both attributes held undoes a toggle to b. -/
theorem toggle_back (doc : Document) (n t : Nat) (b c : Bool)
    (hv : dataVisible doc n = JSVal.str (toDOMString (JSVal.bool c)))
    (he : ariaExpanded doc t = JSVal.str (toDOMString (JSVal.bool c))) :
    setAttribute (setAttribute (setAttribute (setAttribute doc n "data-visible" (JSVal.bool b))
      t "aria-expanded" (JSVal.bool b)) n "data-visible" (JSVal.bool c))
      t "aria-expanded" (JSVal.bool c) = doc := by
  apply List.ext_getElem?
  intro j
  simp only [getElem?_setAttribute]
  cases hd : doc[j]? with
  | none => simp
  | some e =>
    have hv1 : j = n → e.getAttribute "data-visible" = JSVal.str (toDOMString (JSVal.bool c)) := by
      intro hj
      subst hj
      simpa [dataVisible, getAttribute, hd] using hv
    have he1 : j = t → e.getAttribute "aria-expanded" = JSVal.str (toDOMString (JSVal.bool c)) := by
      intro hj
      subst hj
      simpa [ariaExpanded, getAttribute, hd] using he
    by_cases hjn : j = n
    · by_cases hjt : j = t
      · simp [← hjn, ← hjt, Element.toggle_back_both e b c (hv1 hjn) (he1 hjt)]
      · simp [← hjn, hjt, Element.toggle_back_same e b c (hv1 hjn)]
    · by_cases hjt : j = t
      · simp [hjn, ← hjt, Element.toggle_back_expanded e b c (he1 hjt)]
      · simp [hjn, hjt]

theorem two_clicks_id (doc : Document) (n t : Nat) (c : Bool)
    (hv : dataVisible doc n = JSVal.str (toDOMString (JSVal.bool c)))
    (he : ariaExpanded doc t = JSVal.str (toDOMString (JSVal.bool c))) :
    clicks { nav := some n, navToggle := some t } 2 doc = doc := by
  have hn : n < doc.length := lt_length_of_getAttribute _ _ _ _ hv
  have h1 := dataVisible_handler doc n t hn
  rw [hv, strictEq_toDOMString_bool] at h1
  show (handler _ (handler _ doc).2).2 = doc
  rw [handler_located _ n t, h1, strictEq_toDOMString_bool, Bool.not_not]
  rw [handler_located doc n t, hv, strictEq_toDOMString_bool]
  exact toggle_back doc n t (!c) c hv he

theorem synced_after_clicks (doc : Document) (n t : Nat)
    (hn : n < doc.length) (ht : t < doc.length) (k : Nat) :
    ∃ c : Bool,
      dataVisible (clicks { nav := some n, navToggle := some t } (k + 1) doc) n =
        JSVal.str (toDOMString (JSVal.bool c)) ∧
      ariaExpanded (clicks { nav := some n, navToggle := some t } (k + 1) doc) t =
        JSVal.str (toDOMString (JSVal.bool c)) := by
  rw [clicks_succ_last]
  exact ⟨_, dataVisible_handler _ n t (by rw [length_clicks]; exact hn),
    ariaExpanded_handler _ n t (by rw [length_clicks]; exact ht)⟩

theorem str_toDOMString_bool (c : Bool) :
    JSVal.str (toDOMString (JSVal.bool c)) = JSVal.str "true" ∨
    JSVal.str (toDOMString (JSVal.bool c)) = JSVal.str "false" := by
  cases c
  · exact Or.inr rfl
  · exact Or.inl rfl

theorem completions_located (n t : Nat) (k : Nat) (doc : Document) :
    completions { nav := some n, navToggle := some t } k doc =
      List.replicate k (Completion.normal JSVal.undefined) := by
  induction k generalizing doc with
  | zero => rfl
  | succ k ih =>
    show (handler _ doc).1 :: completions _ k (handler _ doc).2 = _
    rw [ih, handler_located]
    rfl

theorem Page.clickN_env (k : Nat) (p : Page) : (Page.clickN k p).env = p.env := by
  induction k generalizing p with
  | zero => rfl
  | succ k ih =>
    show (Page.clickN k p.click).env = p.env
    rw [ih]
    rfl

theorem Page.clickN_doc (k : Nat) (p : Page) : (Page.clickN k p).doc = clicks p.env k p.doc := by
  induction k generalizing p with
  | zero => rfl
  | succ k ih =>
    show (Page.clickN k p.click).doc = clicks p.env k (handler p.env p.doc).2
    rw [ih]
    rfl

theorem script_success (doc : Document) (page : Page) (h : script doc = Except.ok page) :
    page.doc = doc ∧ page.env.nav = querySelector doc "primary-navigation" ∧
    page.env.navToggle = querySelector doc "mobile-nav-toggle" ∧
    ∃ t, querySelector doc "mobile-nav-toggle" = some t ∧ page.listeners = [t] := by
  unfold script at h
  cases ht : querySelector doc "mobile-nav-toggle" with
  | none => simp [ht] at h
  | some t =>
    simp [ht] at h
    subst h
    simp

/-! ## The claims -/

/-- C1: for every document and every located panel n and trigger t, one run of the
click handler leaves data-visible and aria-expanded both "true" when data-visible
was exactly the string "false", and both "false" for every other value of
data-visible (null for an absent attribute included), whatever aria-expanded held. -/
theorem handler_toggles (doc : Document) (n t : Nat)
    (hn : n < doc.length) (ht : t < doc.length) :
    (dataVisible doc n = JSVal.str "false" →
      dataVisible (handler { nav := some n, navToggle := some t } doc).2 n = JSVal.str "true" ∧
      ariaExpanded (handler { nav := some n, navToggle := some t } doc).2 t = JSVal.str "true") ∧
    (dataVisible doc n ≠ JSVal.str "false" →
      dataVisible (handler { nav := some n, navToggle := some t } doc).2 n = JSVal.str "false" ∧
      ariaExpanded (handler { nav := some n, navToggle := some t } doc).2 t = JSVal.str "false") := by
  rw [dataVisible_handler doc n t hn, ariaExpanded_handler doc n t ht]
  constructor
  · intro h
    have hb : strictEq (dataVisible doc n) (JSVal.str "false") = true := (strictEq_str _ _).mpr h
    simp [hb, toDOMString]
  · intro h
    have hb : strictEq (dataVisible doc n) (JSVal.str "false") = false := by
      rw [← Bool.not_eq_true, strictEq_str]
      exact h
    simp [hb, toDOMString]

theorem handler_toggles_witness :
    (1 < sampleDoc.length ∧ 0 < sampleDoc.length ∧ dataVisible sampleDoc 1 = JSVal.str "false") ∧
    dataVisible (handler { nav := some 1, navToggle := some 0 } sampleDoc).2 1 = JSVal.str "true" ∧
    ariaExpanded (handler { nav := some 1, navToggle := some 0 } sampleDoc).2 0 = JSVal.str "true" :=
  ⟨⟨by decide, by decide, by decide⟩,
    (handler_toggles sampleDoc 1 0 (by decide) (by decide)).1 (by decide)⟩

/-- C2: when data-visible starts as the string "false", after N consecutive runs of
the click handler data-visible is "true" for odd N and "false" for even N, N = 0
included. -/
theorem clicks_parity (doc : Document) (n t : Nat)
    (h : dataVisible doc n = JSVal.str "false") (N : Nat) :
    dataVisible (clicks { nav := some n, navToggle := some t } N doc) n =
      if N % 2 = 1 then JSVal.str "true" else JSVal.str "false" := by
  have hk := dataVisible_clicks n t N doc false h
  rw [hk]
  rcases Nat.mod_two_eq_zero_or_one N with hN | hN
  · simp [hN, toDOMString]
  · simp [hN, toDOMString]

theorem clicks_parity_witness :
    dataVisible sampleDoc 1 = JSVal.str "false" ∧
    dataVisible (clicks { nav := some 1, navToggle := some 0 } 5 sampleDoc) 1 =
      if 5 % 2 = 1 then JSVal.str "true" else JSVal.str "false" :=
  ⟨by decide, clicks_parity sampleDoc 1 0 (by decide) 5⟩

/-- C3: for every initial document (attributes absent or disagreeing included) and
every N >= 1, after N runs of the click handler aria-expanded on the trigger and
data-visible on the panel are the same string. -/
theorem expanded_eq_visible_after_clicks (doc : Document) (n t : Nat)
    (hn : n < doc.length) (ht : t < doc.length) (N : Nat) (hN : 1 ≤ N) :
    ariaExpanded (clicks { nav := some n, navToggle := some t } N doc) t =
      dataVisible (clicks { nav := some n, navToggle := some t } N doc) n := by
  obtain ⟨k, rfl⟩ : ∃ k, N = k + 1 := ⟨N - 1, by omega⟩
  rw [clicks_succ_last]
  rw [ariaExpanded_handler _ n t (by rw [length_clicks]; exact ht),
    dataVisible_handler _ n t (by rw [length_clicks]; exact hn)]

theorem expanded_eq_visible_after_clicks_witness :
    (1 < mismatchDoc.length ∧ 0 < mismatchDoc.length ∧ 1 ≤ 3) ∧
    ariaExpanded (clicks { nav := some 1, navToggle := some 0 } 3 mismatchDoc) 0 =
      dataVisible (clicks { nav := some 1, navToggle := some 0 } 3 mismatchDoc) 1 :=
  ⟨⟨by decide, by decide, by decide⟩,
    expanded_eq_visible_after_clicks mismatchDoc 1 0 (by decide) (by decide) 3 (by decide)⟩

/-- C4: for every initial data-visible value other than the string "false" (null
for an absent attribute, the empty string, "true", "False", any other string), the
first run of the click handler sets data-visible and aria-expanded to "false"; in
particular this holds when getAttribute returns null because the attribute is absent. -/
theorem handler_hides_when_not_false (doc : Document) (n t : Nat)
    (hn : n < doc.length) (ht : t < doc.length) :
    (dataVisible doc n ≠ JSVal.str "false" →
      dataVisible (handler { nav := some n, navToggle := some t } doc).2 n = JSVal.str "false" ∧
      ariaExpanded (handler { nav := some n, navToggle := some t } doc).2 t = JSVal.str "false") ∧
    (dataVisible doc n = JSVal.null →
      dataVisible (handler { nav := some n, navToggle := some t } doc).2 n = JSVal.str "false" ∧
      ariaExpanded (handler { nav := some n, navToggle := some t } doc).2 t = JSVal.str "false") := by
  have key : dataVisible doc n ≠ JSVal.str "false" →
      dataVisible (handler { nav := some n, navToggle := some t } doc).2 n = JSVal.str "false" ∧
      ariaExpanded (handler { nav := some n, navToggle := some t } doc).2 t = JSVal.str "false" := by
    intro h
    have hb : strictEq (dataVisible doc n) (JSVal.str "false") = false := by
      rw [← Bool.not_eq_true, strictEq_str]
      exact h
    rw [dataVisible_handler doc n t hn, ariaExpanded_handler doc n t ht, hb]
    simp [toDOMString]
  refine ⟨key, fun h => key ?_⟩
  rw [h]
  simp

theorem handler_hides_when_not_false_witness :
    (1 < absentDoc.length ∧ 0 < absentDoc.length ∧ dataVisible absentDoc 1 = JSVal.null) ∧
    dataVisible (handler { nav := some 1, navToggle := some 0 } absentDoc).2 1 = JSVal.str "false" ∧
    ariaExpanded (handler { nav := some 1, navToggle := some 0 } absentDoc).2 0 = JSVal.str "false" :=
  ⟨⟨by decide, by decide, by decide⟩,
    (handler_hides_when_not_false absentDoc 1 0 (by decide) (by decide)).2 (by decide)⟩

/-- C5, as stated, fails before the first click: the script sets no attribute at
initialization, so on markup whose two attributes disagree the state right after
initialization (zero clicks) has aria-expanded "false" and data-visible "true". -/
theorem init_state_can_disagree :
    script mismatchDoc = Except.ok mismatchPage ∧
    ariaExpanded (Page.clickN 0 mismatchPage).doc 0 = JSVal.str "false" ∧
    dataVisible (Page.clickN 0 mismatchPage).doc 1 = JSVal.str "true" ∧
    ariaExpanded (Page.clickN 0 mismatchPage).doc 0 ≠
      dataVisible (Page.clickN 0 mismatchPage).doc 1 := by
  refine ⟨rfl, ?_, ?_, ?_⟩ <;> decide

/-- C5, amended: initialization leaves the document exactly as loaded (so the two
attributes are equal right after initialization only when the markup had them equal),
and in every state reached from initialization by one or more clicks, with both
elements located, aria-expanded on the trigger equals data-visible on the panel. -/
theorem expanded_eq_visible_from_init (doc : Document) (page : Page) (n t : Nat)
    (hinit : script doc = Except.ok page)
    (hn : page.env.nav = some n) (ht : page.env.navToggle = some t) :
    (Page.clickN 0 page).doc = doc ∧
    ∀ k, 1 ≤ k →
      ariaExpanded (Page.clickN k page).doc t = dataVisible (Page.clickN k page).doc n := by
  obtain ⟨hdoc, hnav, htog, -⟩ := script_success doc page hinit
  refine ⟨hdoc, ?_⟩
  intro k hk
  have hn1 : n < doc.length := querySelector_lt doc _ n (by rw [← hnav, hn])
  have ht1 : t < doc.length := querySelector_lt doc _ t (by rw [← htog, ht])
  have henv : page.env = { nav := some n, navToggle := some t } := by
    cases hp : page.env with
    | mk a b =>
      rw [hp] at hn ht
      simp at hn ht
      rw [hn, ht]
  obtain ⟨j, rfl⟩ : ∃ j, k = j + 1 := ⟨k - 1, by omega⟩
  rw [Page.clickN_doc, henv, hdoc]
  obtain ⟨c, h1, h2⟩ := synced_after_clicks doc n t hn1 ht1 j
  rw [h1, h2]

theorem expanded_eq_visible_from_init_witness :
    (script mismatchDoc = Except.ok mismatchPage ∧ mismatchPage.env.nav = some 1 ∧
      mismatchPage.env.navToggle = some 0) ∧
    ((Page.clickN 0 mismatchPage).doc = mismatchDoc ∧
      ∀ k, 1 ≤ k →
        ariaExpanded (Page.clickN k mismatchPage).doc 0 =
          dataVisible (Page.clickN k mismatchPage).doc 1) :=
  ⟨⟨rfl, rfl, rfl⟩, expanded_eq_visible_from_init mismatchDoc mismatchPage 1 0 rfl rfl rfl⟩

/-- C6, as stated, fails when only the panel is missing: on a document with a
trigger and no panel, querySelector returns null for the panel and the top-level
script still completes, with the click handler registered on the trigger. -/
theorem script_ok_without_panel :
    querySelector triggerOnlyDoc "primary-navigation" = none ∧
    (∀ e ∈ triggerOnlyDoc, "primary-navigation" ∉ e.classes) ∧
    script triggerOnlyDoc = Except.ok triggerOnlyPage := by
  refine ⟨by decide, by decide, rfl⟩

/-- C6, amended: if the trigger is missing, the top-level script ends in a TypeError
(at navToggle.addEventListener), whether or not the panel is present; if only the
panel is missing, the top-level script completes with nav null and the handler
registered on the trigger, and every later run of the click handler throws a
TypeError at nav.getAttribute and leaves the document unchanged. -/
theorem script_missing_element (doc : Document) :
    ((∀ e ∈ doc, "mobile-nav-toggle" ∉ e.classes) →
      script doc = Except.error (nullDeref "navToggle" "addEventListener")) ∧
    ((∀ e ∈ doc, "primary-navigation" ∉ e.classes) →
      ∀ t, querySelector doc "mobile-nav-toggle" = some t →
        script doc =
          Except.ok { doc := doc, env := { nav := none, navToggle := some t }, listeners := [t] } ∧
        ∀ d : Document, handler { nav := none, navToggle := some t } d =
          (Completion.throw (nullDeref "nav" "getAttribute"), d)) := by
  constructor
  · intro h
    have hq := (querySelector_eq_none doc "mobile-nav-toggle").mpr h
    simp [script, hq]
  · intro h t ht
    have hq := (querySelector_eq_none doc "primary-navigation").mpr h
    refine ⟨by simp [script, hq, ht], ?_⟩
    intro d
    rfl

theorem script_missing_element_witness :
    ((∀ e ∈ panelOnlyDoc, "mobile-nav-toggle" ∉ e.classes) ∧
      script panelOnlyDoc = Except.error (nullDeref "navToggle" "addEventListener")) ∧
    ((∀ e ∈ triggerOnlyDoc, "primary-navigation" ∉ e.classes) ∧
      querySelector triggerOnlyDoc "mobile-nav-toggle" = some 0 ∧
      script triggerOnlyDoc = Except.ok triggerOnlyPage ∧
      ∀ d : Document, handler { nav := none, navToggle := some 0 } d =
        (Completion.throw (nullDeref "nav" "getAttribute"), d)) :=
  ⟨⟨by decide, (script_missing_element panelOnlyDoc).1 (by decide)⟩,
    by decide, by decide, (script_missing_element triggerOnlyDoc).2 (by decide) 0 (by decide)⟩

/-- C7: for every initial document and every N >= 1, after N runs of the click
handler data-visible and aria-expanded each hold exactly the string "true" or the
string "false" (the booleans passed to setAttribute are stored as those strings), and
the next run reads that string back and compares it with "false" correctly: it leaves
"true" exactly when it read "false", and "false" exactly when it read "true". -/
theorem attributes_true_or_false (doc : Document) (n t : Nat)
    (hn : n < doc.length) (ht : t < doc.length) (N : Nat) (hN : 1 ≤ N) :
    (dataVisible (clicks { nav := some n, navToggle := some t } N doc) n = JSVal.str "true" ∨
      dataVisible (clicks { nav := some n, navToggle := some t } N doc) n = JSVal.str "false") ∧
    (ariaExpanded (clicks { nav := some n, navToggle := some t } N doc) t = JSVal.str "true" ∨
      ariaExpanded (clicks { nav := some n, navToggle := some t } N doc) t = JSVal.str "false") ∧
    (dataVisible (clicks { nav := some n, navToggle := some t } (N + 1) doc) n = JSVal.str "true" ↔
      dataVisible (clicks { nav := some n, navToggle := some t } N doc) n = JSVal.str "false") ∧
    (dataVisible (clicks { nav := some n, navToggle := some t } (N + 1) doc) n = JSVal.str "false" ↔
      dataVisible (clicks { nav := some n, navToggle := some t } N doc) n = JSVal.str "true") := by
  obtain ⟨k, rfl⟩ : ∃ k, N = k + 1 := ⟨N - 1, by omega⟩
  obtain ⟨c, h1, h2⟩ := synced_after_clicks doc n t hn ht k
  have h3 : dataVisible (clicks { nav := some n, navToggle := some t } (k + 1 + 1) doc) n =
      JSVal.str (toDOMString (JSVal.bool (!c))) := by
    rw [clicks_succ_last, dataVisible_handler _ n t (by rw [length_clicks]; exact hn), h1,
      strictEq_toDOMString_bool]
  rw [h3, h1, h2]
  cases c <;> simp [toDOMString]

theorem attributes_true_or_false_witness :
    (1 < absentDoc.length ∧ 0 < absentDoc.length ∧ 1 ≤ 1) ∧
    (dataVisible (clicks { nav := some 1, navToggle := some 0 } 1 absentDoc) 1 = JSVal.str "true" ∨
      dataVisible (clicks { nav := some 1, navToggle := some 0 } 1 absentDoc) 1 = JSVal.str "false") ∧
    (ariaExpanded (clicks { nav := some 1, navToggle := some 0 } 1 absentDoc) 0 = JSVal.str "true" ∨
      ariaExpanded (clicks { nav := some 1, navToggle := some 0 } 1 absentDoc) 0 = JSVal.str "false") ∧
    (dataVisible (clicks { nav := some 1, navToggle := some 0 } (1 + 1) absentDoc) 1 = JSVal.str "true" ↔
      dataVisible (clicks { nav := some 1, navToggle := some 0 } 1 absentDoc) 1 = JSVal.str "false") ∧
    (dataVisible (clicks { nav := some 1, navToggle := some 0 } (1 + 1) absentDoc) 1 = JSVal.str "false" ↔
      dataVisible (clicks { nav := some 1, navToggle := some 0 } 1 absentDoc) 1 = JSVal.str "true") :=
  ⟨⟨by decide, by decide, by decide⟩,
    attributes_true_or_false absentDoc 1 0 (by decide) (by decide) 1 (by decide)⟩

/-- C8: from a state in which data-visible is "true" or "false" and aria-expanded
equals it, two runs of the click handler give back the original document; and from
data-visible = "false", aria-expanded = "false" the first run leaves both "true" and
the second leaves both "false". -/
theorem two_clicks_round_trip (doc : Document) (n t : Nat) (s : String)
    (hs : s = "true" ∨ s = "false")
    (hv : dataVisible doc n = JSVal.str s) (he : ariaExpanded doc t = JSVal.str s) :
    clicks { nav := some n, navToggle := some t } 2 doc = doc ∧
    (s = "false" →
      dataVisible (clicks { nav := some n, navToggle := some t } 1 doc) n = JSVal.str "true" ∧
      ariaExpanded (clicks { nav := some n, navToggle := some t } 1 doc) t = JSVal.str "true" ∧
      dataVisible (clicks { nav := some n, navToggle := some t } 2 doc) n = JSVal.str "false" ∧
      ariaExpanded (clicks { nav := some n, navToggle := some t } 2 doc) t = JSVal.str "false") := by
  have hn : n < doc.length := lt_length_of_getAttribute _ _ _ _ hv
  have ht : t < doc.length := lt_length_of_getAttribute _ _ _ _ he
  have hid : clicks { nav := some n, navToggle := some t } 2 doc = doc := by
    rcases hs with rfl | rfl
    · exact two_clicks_id doc n t true hv he
    · exact two_clicks_id doc n t false hv he
  refine ⟨hid, ?_⟩
  intro hf
  subst hf
  have hb : strictEq (dataVisible doc n) (JSVal.str "false") = true := (strictEq_str _ _).mpr hv
  have h1 : clicks { nav := some n, navToggle := some t } 1 doc =
      (handler { nav := some n, navToggle := some t } doc).2 := rfl
  rw [hid, h1, dataVisible_handler doc n t hn, ariaExpanded_handler doc n t ht, hb]
  exact ⟨rfl, rfl, hv, he⟩

theorem two_clicks_round_trip_witness :
    (("false" = "true" ∨ "false" = "false") ∧ dataVisible sampleDoc 1 = JSVal.str "false" ∧
      ariaExpanded sampleDoc 0 = JSVal.str "false") ∧
    clicks { nav := some 1, navToggle := some 0 } 2 sampleDoc = sampleDoc ∧
    dataVisible (clicks { nav := some 1, navToggle := some 0 } 1 sampleDoc) 1 = JSVal.str "true" ∧
    ariaExpanded (clicks { nav := some 1, navToggle := some 0 } 1 sampleDoc) 0 = JSVal.str "true" ∧
    dataVisible (clicks { nav := some 1, navToggle := some 0 } 2 sampleDoc) 1 = JSVal.str "false" ∧
    ariaExpanded (clicks { nav := some 1, navToggle := some 0 } 2 sampleDoc) 0 = JSVal.str "false" :=
  ⟨⟨by decide, by decide, by decide⟩,
    (two_clicks_round_trip sampleDoc 1 0 "false" (by decide) (by decide) (by decide)).1,
    (two_clicks_round_trip sampleDoc 1 0 "false" (by decide) (by decide) (by decide)).2 rfl⟩

/-- C9: when initialization located both elements, then for every document state
(data-visible absent included) and every number k of clicks, each of the k runs of
the click handler completes normally, none throws, and each returns undefined. -/
theorem no_error_when_located (doc : Document) (page : Page)
    (hinit : script doc = Except.ok page) (hnav : page.env.nav ≠ none)
    (k : Nat) (d : Document) :
    completions page.env k d = List.replicate k (Completion.normal JSVal.undefined) ∧
    ∀ c ∈ completions page.env k d, c = Completion.normal JSVal.undefined := by
  obtain ⟨-, -, htog, t, ht, -⟩ := script_success doc page hinit
  have henv : ∃ n, page.env = { nav := some n, navToggle := some t } := by
    cases hp : page.env with
    | mk a b =>
      rw [hp] at hnav htog
      simp at hnav htog
      obtain ⟨n, hn⟩ := Option.ne_none_iff_exists.mp hnav
      exact ⟨n, by rw [← hn, htog, ht]⟩
  obtain ⟨n, hn⟩ := henv
  rw [hn, completions_located]
  exact ⟨rfl, fun c hc => List.eq_of_mem_replicate hc⟩

theorem no_error_when_located_witness :
    (script absentDoc = Except.ok { doc := absentDoc, env := sampleEnv, listeners := [0] } ∧
      sampleEnv.nav ≠ none) ∧
    (completions sampleEnv 4 absentDoc = List.replicate 4 (Completion.normal JSVal.undefined) ∧
      ∀ c ∈ completions sampleEnv 4 absentDoc, c = Completion.normal JSVal.undefined) :=
  ⟨⟨rfl, by decide⟩,
    no_error_when_located absentDoc { doc := absentDoc, env := sampleEnv, listeners := [0] }
      rfl (by decide) 4 absentDoc⟩

/-- C10: (a) two documents that agree on data-visible, whatever their aria-expanded
values, have the same data-visible and aria-expanded after one run of the click
handler; (b) for every document, three runs leave the same document as one run;
(c) if two runs give back the initial pair of attribute values, then that pair
already had data-visible equal to "true" or "false" and aria-expanded equal to it. -/
theorem click_determined_and_normalises (doc other : Document) (n t : Nat)
    (hn : n < doc.length) (ht : t < doc.length)
    (hn2 : n < other.length) (ht2 : t < other.length) :
    (dataVisible doc n = dataVisible other n →
      dataVisible (handler { nav := some n, navToggle := some t } doc).2 n =
        dataVisible (handler { nav := some n, navToggle := some t } other).2 n ∧
      ariaExpanded (handler { nav := some n, navToggle := some t } doc).2 t =
        ariaExpanded (handler { nav := some n, navToggle := some t } other).2 t) ∧
    clicks { nav := some n, navToggle := some t } 3 doc =
      clicks { nav := some n, navToggle := some t } 1 doc ∧
    (dataVisible (clicks { nav := some n, navToggle := some t } 2 doc) n = dataVisible doc n ∧
      ariaExpanded (clicks { nav := some n, navToggle := some t } 2 doc) t = ariaExpanded doc t →
      (dataVisible doc n = JSVal.str "true" ∨ dataVisible doc n = JSVal.str "false") ∧
      ariaExpanded doc t = dataVisible doc n) := by
  refine ⟨?_, ?_, ?_⟩
  · intro h
    rw [dataVisible_handler doc n t hn, dataVisible_handler other n t hn2,
      ariaExpanded_handler doc n t ht, ariaExpanded_handler other n t ht2, h]
    exact ⟨rfl, rfl⟩
  · obtain ⟨c, h1, h2⟩ := synced_after_clicks doc n t hn ht 0
    exact two_clicks_id _ n t c h1 h2
  · rintro ⟨hv, he⟩
    obtain ⟨c, h1, h2⟩ := synced_after_clicks doc n t hn ht 1
    rw [← hv, ← he, h1, h2]
    exact ⟨str_toDOMString_bool c, rfl⟩

theorem click_determined_and_normalises_witness :
    (1 < sampleDoc.length ∧ 0 < sampleDoc.length ∧ 1 < staleDoc.length ∧ 0 < staleDoc.length ∧
      dataVisible sampleDoc 1 = dataVisible staleDoc 1 ∧
      ariaExpanded sampleDoc 0 ≠ ariaExpanded staleDoc 0 ∧
      dataVisible (clicks { nav := some 1, navToggle := some 0 } 2 sampleDoc) 1 =
        dataVisible sampleDoc 1 ∧
      ariaExpanded (clicks { nav := some 1, navToggle := some 0 } 2 sampleDoc) 0 =
        ariaExpanded sampleDoc 0) ∧
    (dataVisible (handler { nav := some 1, navToggle := some 0 } sampleDoc).2 1 =
        dataVisible (handler { nav := some 1, navToggle := some 0 } staleDoc).2 1 ∧
      ariaExpanded (handler { nav := some 1, navToggle := some 0 } sampleDoc).2 0 =
        ariaExpanded (handler { nav := some 1, navToggle := some 0 } staleDoc).2 0) ∧
    clicks { nav := some 1, navToggle := some 0 } 3 sampleDoc =
      clicks { nav := some 1, navToggle := some 0 } 1 sampleDoc ∧
    ((dataVisible sampleDoc 1 = JSVal.str "true" ∨ dataVisible sampleDoc 1 = JSVal.str "false") ∧
      ariaExpanded sampleDoc 0 = dataVisible sampleDoc 1) :=
  ⟨⟨by decide, by decide, by decide, by decide, by decide, by decide, by decide, by decide⟩,
    (click_determined_and_normalises sampleDoc staleDoc 1 0
      (by decide) (by decide) (by decide) (by decide)).1 (by decide),
    (click_determined_and_normalises sampleDoc staleDoc 1 0
      (by decide) (by decide) (by decide) (by decide)).2.1,
    (click_determined_and_normalises sampleDoc staleDoc 1 0
      (by decide) (by decide) (by decide) (by decide)).2.2 ⟨by decide, by decide⟩⟩

end Navigation
